import Mathlib

/-!
# designate-operator: topology binding and init containers

A shallow embedding of

* `controllers/designate_common.go` : `ensureTopology`, with the two capability
  interfaces `conditionUpdater` and `topologyHandler`;
* `pkg/designate/initcontainer.go` : `SimpleInitContainer` and `InitContainer`.

Go pointers and slices are nullable, so `*T` is `Option T` and `[]T` is
`Option (List T)` (`none` is `nil`).  The two `*TopoRef` of an instance are
handed to a function of another module, which can write through them: they are
optional addresses, and the `TopoRef` values behind them live in a world that
is passed to that function and taken back from it.  A Go interface is a record
of functions over the state type of its implementation; a method with a pointer
receiver that mutates takes the state and returns the new one.
-/

namespace Designate

/-! ## Go values used by the controller -/

/-- Go `error` values: a plain error carrying its text, or the `*fmt.wrapError`
that `fmt.Errorf` builds for a `%w` verb (its text and the wrapped error). -/
inductive GoError where
  | errorString (s : String)
  | wrapError (msg : String) (err : GoError)
  deriving DecidableEq, Repr

/-- The method `Error()` of a Go error. -/
def GoError.Error : GoError → String
  | .errorString s => s
  | .wrapError msg _ => msg

/-- The method `Unwrap()`: the wrapped error of a `wrapError`, nothing
otherwise. -/
def GoError.Unwrap : GoError → Option GoError
  | .errorString _ => none
  | .wrapError _ err => some err

/-- The call `fmt.Errorf(lead + "%w", err)` for a non-nil `err`: the text is
`lead` followed by `err.Error()`, and the result unwraps to `err`. -/
def Errorf_w (lead : String) (err : GoError) : GoError :=
  .wrapError (lead ++ err.Error) err

/-- Formatting of `fmt.Sprintf` for the verbs this code uses: `%s` takes the
next string operand, `%%` is a percent sign, every other character is copied.
A `%s` without an operand prints Go's `%!s(MISSING)`. -/
def sprintfChars : List Char → List String → List Char
  | [], _ => []
  | c :: rest, args =>
    if c = '%' then
      match rest, args with
      | d :: rest2, a :: args2 =>
        if d = 's' then a.data ++ sprintfChars rest2 args2
        else if d = '%' then '%' :: sprintfChars rest2 (a :: args2)
        else c :: d :: sprintfChars rest2 (a :: args2)
      | d :: rest2, [] =>
        if d = 's' then "%!s(MISSING)".data ++ sprintfChars rest2 []
        else if d = '%' then '%' :: sprintfChars rest2 []
        else c :: d :: sprintfChars rest2 []
      | [], _ => [c]
    else c :: sprintfChars rest args

/-- The call `fmt.Sprintf(format, args...)` with string operands. -/
def Sprintf (format : String) (args : List String) : String :=
  String.mk (sprintfChars format.data args)

/-- The type `topologyv1.TopoRef`: name and namespace of a Topology. -/
structure TopoRef where
  Name : String
  Namespace : String
  deriving DecidableEq, Repr

/-- The custom resource `topologyv1.Topology`, by its identity and finalizers. -/
structure Topology where
  Name : String
  Namespace : String
  Finalizers : List String
  deriving DecidableEq, Repr

/-- The type `metav1.LabelSelector`, by its `MatchLabels`. -/
structure LabelSelector where
  MatchLabels : List (String × String)
  deriving DecidableEq, Repr

/-! ## lib-common conditions -/

/-- The type `condition.Condition` (the transition time is left to the
condition updater that stores it). -/
structure Condition where
  CondType : String
  Status : String
  Severity : String
  Reason : String
  Message : String
  deriving DecidableEq, Repr

/-- The constant `corev1.ConditionFalse`. -/
def ConditionFalse : String := "False"

/-- The constant `condition.TopologyReadyCondition`. -/
def TopologyReadyCondition : String := "TopologyReady"

/-- The constant `condition.ErrorReason`. -/
def ErrorReason : String := "Error"

/-- The constant `condition.SeverityWarning`. -/
def SeverityWarning : String := "Warning"

/-- The constant `condition.TopologyReadyMessage`. -/
def TopologyReadyMessage : String := "Topology config create completed"

/-- The constant `condition.TopologyReadyErrorMessage`. -/
def TopologyReadyErrorMessage : String := "Topology config create error occurred %s"

/-- The function `condition.FalseCondition`: a condition of status False whose
message is the format applied to the arguments. -/
def FalseCondition (t reason severity messageFormat : String)
    (messageArgs : List String) : Condition :=
  { CondType := t
    Status := ConditionFalse
    Reason := reason
    Severity := severity
    Message := Sprintf messageFormat messageArgs }

/-! ## Pointers to `TopoRef` and what the collaborator shares with the caller -/

/-- The address a `*topologyv1.TopoRef` holds; a nil pointer is `none`. -/
abbrev Addr := Nat

/-- What lies outside the instance's own fields and is shared with the
collaborator: the `TopoRef` value behind every pointer, and the cluster that the
collaborator reads and writes through the helper's client. -/
structure World (σ : Type) where
  refs : Addr → TopoRef
  cluster : σ

/-- The `TopoRef` a pointer leads to, nothing for a nil pointer. -/
def World.deref {σ : Type} (w : World σ) (p : Option Addr) : Option TopoRef :=
  p.map w.refs

/-- Assignment through a pointer: `*a = v`. -/
def World.write {σ : Type} (w : World σ) (a : Addr) (v : TopoRef) : World σ :=
  { w with refs := fun b => if b = a then v else w.refs b }

/-- What `EnsureServiceTopology` hands back: its two Go results, and the world
as it left it. -/
structure Returned (σ : Type) where
  topology : Option Topology
  err : Option GoError
  world : World σ

/-- The function `topologyv1.EnsureServiceTopology` of infra-operator, as
`ensureTopology` sees it: it receives the context, the helper, the two
`*TopoRef` pointers of the instance, the finalizer and the selector; it can
write the `TopoRef` values behind the pointers and the cluster. -/
abbrev Collaborator (Ctx Hlp σ : Type) : Type :=
  Ctx → Hlp → Option Addr → Option Addr → String → LabelSelector → World σ → Returned σ

/-! ## The two capability interfaces of `designate_common.go` -/

/-- The interface `conditionUpdater` over an implementation with state `κ`. -/
structure conditionUpdater (κ : Type) where
  Set : Condition → κ → κ
  MarkTrue : String → String → List String → κ → κ

/-- The interface `topologyHandler` over an implementation with state `ι`; the
two getters return the pointers the instance holds. -/
structure topologyHandler (ι : Type) where
  GetSpecTopologyRef : ι → Option Addr
  GetLastAppliedTopology : ι → Option Addr
  SetLastAppliedTopology : Option Addr → ι → ι

/-- What a call of `ensureTopology` leaves behind: the two returned values,
the instance, the condition updater and the world after the call. -/
structure Outcome (σ ι κ : Type) where
  topology : Option Topology
  err : Option GoError
  inst : ι
  cu : κ
  world : World σ

/-- The function `ensureTopology`.  `EnsureServiceTopology` is the function of
that name of infra-operator, taken as a parameter; it is given the pointers
that the two getters return, and the world it leaves is the one the rest of the
body runs in. -/
def ensureTopology {Ctx Hlp σ ι κ : Type}
    (EnsureServiceTopology : Collaborator Ctx Hlp σ)
    (H : topologyHandler ι) (U : conditionUpdater κ)
    (ctx : Ctx) (helper : Hlp) (inst : ι) (finalizer : String) (cu : κ)
    (defaultLabelSelector : LabelSelector) (w : World σ) : Outcome σ ι κ :=
  let r := EnsureServiceTopology ctx helper (H.GetSpecTopologyRef inst)
    (H.GetLastAppliedTopology inst) finalizer defaultLabelSelector w
  match r.err with
  | some err =>
    let cu1 := U.Set (FalseCondition TopologyReadyCondition ErrorReason SeverityWarning
      TopologyReadyErrorMessage [err.Error]) cu
    { topology := none
      err := some (Errorf_w "waiting for Topology requirements: " err)
      inst := inst
      cu := cu1
      world := r.world }
  | none =>
    -- update the Status with the last retrieved Topology (or set it to nil)
    let inst1 := H.SetLastAppliedTopology (H.GetSpecTopologyRef inst) inst
    -- update the Topology condition only when a Topology is referenced and has
    -- been retrieved (err == nil)
    let cu1 := match H.GetSpecTopologyRef inst1 with
      | some _ => U.MarkTrue TopologyReadyCondition TopologyReadyMessage [] cu
      | none => cu
    { topology := r.topology
      err := none
      inst := inst1
      cu := cu1
      world := r.world }

/-! ## Implementations of the interfaces -/

/-- Modelled from the spec: the implementation of `topologyHandler` by the
custom resources of the operator (ManagedEntity, section 3), whose Go methods
live in the API package: the pointer to the placement reference of the desired
spec and the pointer `lastAppliedTopology` of the Status. -/
structure Instance where
  specTopologyRef : Option Addr
  lastAppliedTopology : Option Addr
  deriving DecidableEq, Repr

/-- Modelled from the spec: the three `topologyHandler` methods of a custom
resource, which return the spec pointer, return the pointer
`lastAppliedTopology` and overwrite the pointer `lastAppliedTopology`. -/
def Instance.handler : topologyHandler Instance where
  GetSpecTopologyRef := fun i => i.specTopologyRef
  GetLastAppliedTopology := fun i => i.lastAppliedTopology
  SetLastAppliedTopology := fun t i => { i with lastAppliedTopology := t }

/-- A topology handler that behaves as `H` and also records, oldest first, the
argument of every `SetLastAppliedTopology` call. -/
def recordingHandler {ι : Type} (H : topologyHandler ι) :
    topologyHandler (ι × List (Option Addr)) where
  GetSpecTopologyRef := fun s => H.GetSpecTopologyRef s.1
  GetLastAppliedTopology := fun s => H.GetLastAppliedTopology s.1
  SetLastAppliedTopology := fun t s => (H.SetLastAppliedTopology t s.1, s.2 ++ [t])

/-- A call on a condition updater, with its arguments. -/
inductive UpdaterCall where
  | Set (c : Condition)
  | MarkTrue (t : String) (messageFormat : String) (messageArgs : List String)
  deriving DecidableEq, Repr

/-- Whether a call is a `MarkTrue`. -/
def UpdaterCall.isMarkTrue : UpdaterCall → Bool
  | .MarkTrue _ _ _ => true
  | .Set _ => false

/-- Whether a call is a `Set`. -/
def UpdaterCall.isSet : UpdaterCall → Bool
  | .Set _ => true
  | .MarkTrue _ _ _ => false

/-- A condition updater that behaves as `U` and also records, oldest first,
every call made on it. -/
def recordingUpdater {κ : Type} (U : conditionUpdater κ) :
    conditionUpdater (κ × List UpdaterCall) where
  Set := fun c s => (U.Set c s.1, s.2 ++ [.Set c])
  MarkTrue := fun t f args s => (U.MarkTrue t f args s.1, s.2 ++ [.MarkTrue t f args])

/-! ## Kubernetes core types used by the init containers -/

/-- The type `corev1.VolumeMount`. -/
structure VolumeMount where
  Name : String := ""
  ReadOnly : Bool := false
  RecursiveReadOnly : Option String := none
  MountPath : String := ""
  SubPath : String := ""
  MountPropagation : Option String := none
  SubPathExpr : String := ""
  deriving DecidableEq, Repr

/-- The type `corev1.EnvVar`; `ValueFrom` is kept by the name and key of the
object it points to. -/
structure EnvVar where
  Name : String := ""
  Value : String := ""
  ValueFrom : Option (String × String) := none
  deriving DecidableEq, Repr

/-- The type `corev1.SecurityContext`; a field that is a pointer to a structure
is kept as an optional description. -/
structure SecurityContext where
  Capabilities : Option (List String × List String) := none
  Privileged : Option Bool := none
  SELinuxOptions : Option String := none
  WindowsOptions : Option String := none
  RunAsUser : Option Int := none
  RunAsGroup : Option Int := none
  RunAsNonRoot : Option Bool := none
  ReadOnlyRootFilesystem : Option Bool := none
  AllowPrivilegeEscalation : Option Bool := none
  ProcMount : Option String := none
  SeccompProfile : Option String := none
  AppArmorProfile : Option String := none
  deriving DecidableEq, Repr

/-- The type `corev1.ResourceRequirements`, by its limits and requests. -/
structure ResourceRequirements where
  Limits : Option (List (String × String)) := none
  Requests : Option (List (String × String)) := none
  Claims : Option (List String) := none
  deriving DecidableEq, Repr

/-- The type `corev1.Container`.  Every field has Go's zero value as its
default, so a structure instance reads as the Go composite literal.  Ports,
sources, probes, hooks and devices are kept as descriptions. -/
structure Container where
  Name : String := ""
  Image : String := ""
  Command : Option (List String) := none
  Args : Option (List String) := none
  WorkingDir : String := ""
  Ports : Option (List (String × Int)) := none
  EnvFrom : Option (List String) := none
  Env : Option (List EnvVar) := none
  Resources : ResourceRequirements := {}
  ResizePolicy : Option (List (String × String)) := none
  RestartPolicy : Option String := none
  VolumeMounts : Option (List VolumeMount) := none
  VolumeDevices : Option (List (String × String)) := none
  LivenessProbe : Option String := none
  ReadinessProbe : Option String := none
  StartupProbe : Option String := none
  Lifecycle : Option String := none
  TerminationMessagePath : String := ""
  TerminationMessagePolicy : String := ""
  ImagePullPolicy : String := ""
  SecurityContext : Option SecurityContext := none
  Stdin : Bool := false
  StdinOnce : Bool := false
  TTY : Bool := false
  deriving DecidableEq, Repr

/-! ## `pkg/designate/initcontainer.go` -/

/-- The type `APIDetails`. -/
structure APIDetails where
  ContainerImage : String
  DatabaseHost : String
  DatabaseName : String
  OSPSecret : String
  TransportURLSecret : String
  UserPasswordSelector : String
  VolumeMounts : Option (List VolumeMount)
  Privileged : Bool
  deriving DecidableEq, Repr

/-- The type `InitContainerDetails`. -/
structure InitContainerDetails where
  ContainerImage : String
  VolumeMounts : Option (List VolumeMount)
  EnvVars : Option (List EnvVar)
  deriving DecidableEq, Repr

/-- The constant `InitContainerCommand`. -/
def InitContainerCommand : String := "/usr/local/bin/container-scripts/init.sh"

/-- The function `SimpleInitContainer`. -/
def SimpleInitContainer (init : InitContainerDetails) : Container :=
  let runAsUser : Int := 0
  let args : Option (List String) := some ["-c", InitContainerCommand]
  { Name := "init"
    Image := init.ContainerImage
    SecurityContext := some { RunAsUser := some runAsUser }
    Command := some ["/bin/bash"]
    Args := args
    Env := init.EnvVars
    VolumeMounts := init.VolumeMounts }

/-- The function `InitContainer`. -/
def InitContainer (init : APIDetails) : Option (List Container) :=
  let runAsUser : Int := 0
  let args : Option (List String) := some ["-c", InitContainerCommand]
  some [
    { Name := "init"
      Image := init.ContainerImage
      SecurityContext := some { RunAsUser := some runAsUser }
      Command := some ["/bin/bash"]
      Args := args
      VolumeMounts := init.VolumeMounts } ]

/-! ## Running `ensureTopology` under observation -/

/-- The function `ensureTopology` run with both recorders, each starting from an
empty record: in the outcome, `inst.2` lists the `SetLastAppliedTopology` calls
and `cu.2` the condition updater calls made during this one call. -/
def ensureTopologyRecorded {Ctx Hlp σ ι κ : Type}
    (EnsureServiceTopology : Collaborator Ctx Hlp σ)
    (H : topologyHandler ι) (U : conditionUpdater κ)
    (ctx : Ctx) (helper : Hlp) (inst : ι) (finalizer : String) (cu : κ)
    (defaultLabelSelector : LabelSelector) (w : World σ) :
    Outcome σ (ι × List (Option Addr)) (κ × List UpdaterCall) :=
  ensureTopology EnsureServiceTopology (recordingHandler H) (recordingUpdater U)
    ctx helper (inst, []) finalizer (cu, []) defaultLabelSelector w

/-- A collaborator that fails with `e` whatever it is asked, and writes
nothing. -/
def failingCollaborator (e : GoError) : Collaborator Unit String (List Topology) :=
  fun _ _ _ _ _ _ w => { topology := none, err := some e, world := w }

/-- A collaborator that succeeds and writes nothing: it returns `t` when a
Topology is referenced and no Topology otherwise. -/
def succeedingCollaborator (t : Topology) : Collaborator Unit String (List Topology) :=
  fun _ _ ref _ _ _ w => { topology := ref.map (fun _ => t), err := none, world := w }

/-- A collaborator that writes through the spec pointer, in the way of
infra-operator's function: the helper is the namespace of the instance, an
empty `Namespace` of the referenced `TopoRef` is filled in with it, and the
Topology of that name and namespace is then looked up in the cluster; the
lookup fails when there is none. -/
def defaultingCollaborator : Collaborator Unit String (List Topology) :=
  fun _ ns tpRef _ _ _ w =>
    match tpRef with
    | none => { topology := none, err := none, world := w }
    | some a =>
      let w1 := if (w.refs a).Namespace = "" then
          w.write a { Name := (w.refs a).Name, Namespace := ns }
        else w
      match w1.cluster.find?
          (fun t => t.Name = (w1.refs a).Name ∧ t.Namespace = (w1.refs a).Namespace) with
      | some t => { topology := some t, err := none, world := w1 }
      | none =>
        { topology := none
          err := some (.errorString ("topology " ++ (w1.refs a).Name ++ " not found"))
          world := w1 }

/-- A world in which address 1 holds `specRef`, every other address holds
`lastRef`, and the cluster has the Topologies `ts`. -/
def twoRefs (specRef lastRef : TopoRef) (ts : List Topology) : World (List Topology) :=
  { refs := fun a => if a = 1 then specRef else lastRef
    cluster := ts }

/-- A condition updater without state, for use under `recordingUpdater`. -/
def nullUpdater : conditionUpdater Unit where
  Set := fun _ _ => ()
  MarkTrue := fun _ _ _ _ => ()

/-! ## Lemmas on the two branches of `ensureTopology` -/

/-- The error branch: what `ensureTopology` leaves behind when the collaborator
returns the error `e`. -/
theorem ensureTopology_of_error {Ctx Hlp σ ι κ : Type}
    (EST : Collaborator Ctx Hlp σ)
    (H : topologyHandler ι) (U : conditionUpdater κ)
    (ctx : Ctx) (helper : Hlp) (inst : ι) (finalizer : String) (cu : κ)
    (sel : LabelSelector) (w : World σ) (e : GoError)
    (h : (EST ctx helper (H.GetSpecTopologyRef inst) (H.GetLastAppliedTopology inst)
      finalizer sel w).err = some e) :
    ensureTopology EST H U ctx helper inst finalizer cu sel w =
      { topology := none
        err := some (Errorf_w "waiting for Topology requirements: " e)
        inst := inst
        cu := U.Set (FalseCondition TopologyReadyCondition ErrorReason SeverityWarning
          TopologyReadyErrorMessage [e.Error]) cu
        world := (EST ctx helper (H.GetSpecTopologyRef inst) (H.GetLastAppliedTopology inst)
          finalizer sel w).world } := by
  simp only [ensureTopology, h]

/-- The success branch: what `ensureTopology` leaves behind when the
collaborator returns no error. -/
theorem ensureTopology_of_success {Ctx Hlp σ ι κ : Type}
    (EST : Collaborator Ctx Hlp σ)
    (H : topologyHandler ι) (U : conditionUpdater κ)
    (ctx : Ctx) (helper : Hlp) (inst : ι) (finalizer : String) (cu : κ)
    (sel : LabelSelector) (w : World σ)
    (h : (EST ctx helper (H.GetSpecTopologyRef inst) (H.GetLastAppliedTopology inst)
      finalizer sel w).err = none) :
    ensureTopology EST H U ctx helper inst finalizer cu sel w =
      { topology := (EST ctx helper (H.GetSpecTopologyRef inst)
          (H.GetLastAppliedTopology inst) finalizer sel w).topology
        err := none
        inst := H.SetLastAppliedTopology (H.GetSpecTopologyRef inst) inst
        cu := match H.GetSpecTopologyRef
            (H.SetLastAppliedTopology (H.GetSpecTopologyRef inst) inst) with
          | some _ => U.MarkTrue TopologyReadyCondition TopologyReadyMessage [] cu
          | none => cu
        world := (EST ctx helper (H.GetSpecTopologyRef inst) (H.GetLastAppliedTopology inst)
          finalizer sel w).world } := by
  simp only [ensureTopology, h]

/-- The text of the condition written on failure: the error message of
lib-common with the operand in the place of its verb. -/
theorem Sprintf_TopologyReadyErrorMessage (s : String) :
    Sprintf TopologyReadyErrorMessage [s] = "Topology config create error occurred " ++ s := by
  apply String.ext
  simp [Sprintf, TopologyReadyErrorMessage, sprintfChars]

/-! ## Claims on `ensureTopology` -/

/-- C1 as stated fails on its last part: the spec ref has an empty namespace,
the collaborator fills it in through the pointer and then fails to find the
Topology; `ensureTopology` returns the error, and the spec ref read after the
call is not the one read before it. -/
theorem ensureTopology_error_spec_ref_written_counterexample :
    (defaultingCollaborator () "openstack" (some 1) (some 2)
      "openstack.org/designateproducer" ⟨[]⟩
      (twoRefs ⟨"zone-b", ""⟩ ⟨"zone-a", "openstack"⟩
        [⟨"zone-a", "openstack", []⟩])).err =
      some (.errorString "topology zone-b not found") ∧
    (twoRefs ⟨"zone-b", ""⟩ ⟨"zone-a", "openstack"⟩
      [⟨"zone-a", "openstack", []⟩]).deref
        (⟨some 1, some 2⟩ : Instance).specTopologyRef = some ⟨"zone-b", ""⟩ ∧
    (ensureTopologyRecorded defaultingCollaborator Instance.handler nullUpdater ()
      "openstack" ⟨some 1, some 2⟩ "openstack.org/designateproducer" () ⟨[]⟩
      (twoRefs ⟨"zone-b", ""⟩ ⟨"zone-a", "openstack"⟩
        [⟨"zone-a", "openstack", []⟩])).world.deref
      (ensureTopologyRecorded defaultingCollaborator Instance.handler nullUpdater ()
        "openstack" ⟨some 1, some 2⟩ "openstack.org/designateproducer" () ⟨[]⟩
        (twoRefs ⟨"zone-b", ""⟩ ⟨"zone-a", "openstack"⟩
          [⟨"zone-a", "openstack", []⟩])).inst.1.specTopologyRef =
      some ⟨"zone-b", "openstack"⟩ := by
  refine ⟨?_, ?_, ?_⟩ <;> decide

/-- C1, amended (drift preservation): when the collaborator returns an error,
`ensureTopology` makes no `SetLastAppliedTopology` call and writes nothing of
its own: the instance, with its two pointers, is handed back as it was, and the
world is the one the collaborator left.  So the last-applied topology ref after
the call is the one before it whenever the collaborator left the `TopoRef`
behind that pointer as it was, and likewise for the spec topology ref. -/
theorem ensureTopology_error_keeps_lastApplied {Ctx Hlp σ ι κ : Type}
    (EST : Collaborator Ctx Hlp σ)
    (H : topologyHandler ι) (U : conditionUpdater κ)
    (ctx : Ctx) (helper : Hlp) (inst : ι) (finalizer : String) (cu : κ)
    (sel : LabelSelector) (w : World σ) (e : GoError)
    (hErr : (EST ctx helper (H.GetSpecTopologyRef inst) (H.GetLastAppliedTopology inst)
      finalizer sel w).err = some e) :
    (ensureTopologyRecorded EST H U ctx helper inst finalizer cu sel w).inst.2 = [] ∧
    (ensureTopologyRecorded EST H U ctx helper inst finalizer cu sel w).inst.1 = inst ∧
    (ensureTopologyRecorded EST H U ctx helper inst finalizer cu sel w).world =
      (EST ctx helper (H.GetSpecTopologyRef inst) (H.GetLastAppliedTopology inst)
        finalizer sel w).world ∧
    ((EST ctx helper (H.GetSpecTopologyRef inst) (H.GetLastAppliedTopology inst)
        finalizer sel w).world.deref (H.GetLastAppliedTopology inst) =
        w.deref (H.GetLastAppliedTopology inst) →
      (ensureTopologyRecorded EST H U ctx helper inst finalizer cu sel w).world.deref
        (H.GetLastAppliedTopology
          (ensureTopologyRecorded EST H U ctx helper inst finalizer cu sel w).inst.1) =
        w.deref (H.GetLastAppliedTopology inst)) ∧
    ((EST ctx helper (H.GetSpecTopologyRef inst) (H.GetLastAppliedTopology inst)
        finalizer sel w).world.deref (H.GetSpecTopologyRef inst) =
        w.deref (H.GetSpecTopologyRef inst) →
      (ensureTopologyRecorded EST H U ctx helper inst finalizer cu sel w).world.deref
        (H.GetSpecTopologyRef
          (ensureTopologyRecorded EST H U ctx helper inst finalizer cu sel w).inst.1) =
        w.deref (H.GetSpecTopologyRef inst)) := by
  have h := ensureTopology_of_error EST (recordingHandler H) (recordingUpdater U)
    ctx helper (inst, []) finalizer (cu, []) sel w e hErr
  unfold ensureTopologyRecorded
  rw [h]
  exact ⟨rfl, rfl, rfl, fun hl => hl, fun hs => hs⟩

/-- Witness of the amended C1: a custom resource bound to `zone-a` whose spec
now names `zone-b`; the collaborator fills in the namespace of the spec ref,
does not find `zone-b`, and the last-applied ref still reads `zone-a`. -/
theorem ensureTopology_error_keeps_lastApplied_witness :
    (defaultingCollaborator () "openstack" (some 1) (some 2)
      "openstack.org/designateproducer" ⟨[]⟩
      (twoRefs ⟨"zone-b", ""⟩ ⟨"zone-a", "openstack"⟩
        [⟨"zone-a", "openstack", []⟩])).err =
      some (.errorString "topology zone-b not found") ∧
    (ensureTopologyRecorded defaultingCollaborator Instance.handler nullUpdater ()
      "openstack" ⟨some 1, some 2⟩ "openstack.org/designateproducer" () ⟨[]⟩
      (twoRefs ⟨"zone-b", ""⟩ ⟨"zone-a", "openstack"⟩
        [⟨"zone-a", "openstack", []⟩])).world.deref
      (ensureTopologyRecorded defaultingCollaborator Instance.handler nullUpdater ()
        "openstack" ⟨some 1, some 2⟩ "openstack.org/designateproducer" () ⟨[]⟩
        (twoRefs ⟨"zone-b", ""⟩ ⟨"zone-a", "openstack"⟩
          [⟨"zone-a", "openstack", []⟩])).inst.1.lastAppliedTopology =
      some ⟨"zone-a", "openstack"⟩ :=
  ⟨by decide, ((ensureTopology_error_keeps_lastApplied defaultingCollaborator
    Instance.handler nullUpdater () "openstack" ⟨some 1, some 2⟩
    "openstack.org/designateproducer" () ⟨[]⟩
    (twoRefs ⟨"zone-b", ""⟩ ⟨"zone-a", "openstack"⟩ [⟨"zone-a", "openstack", []⟩])
    (.errorString "topology zone-b not found") (by decide)).2.2.2.1 (by decide)).trans
    (by decide)⟩

/-- C2 as stated fails: the spec topology ref is nil, the collaborator fails (it
could not release the topology bound before), and `ensureTopology` returns an
error and leaves the last-applied topology ref in place. -/
theorem ensureTopology_nil_ref_error_counterexample :
    (⟨none, some 2⟩ : Instance).specTopologyRef = none ∧
    (ensureTopologyRecorded (failingCollaborator (.errorString "finalizer removal conflict"))
        Instance.handler nullUpdater () "openstack" ⟨none, some 2⟩
        "openstack.org/designateproducer" () ⟨[]⟩
        (twoRefs ⟨"", ""⟩ ⟨"zone-a", "openstack"⟩ [])).err =
      some (.wrapError "waiting for Topology requirements: finalizer removal conflict"
        (.errorString "finalizer removal conflict")) ∧
    (ensureTopologyRecorded (failingCollaborator (.errorString "finalizer removal conflict"))
        Instance.handler nullUpdater () "openstack" ⟨none, some 2⟩
        "openstack.org/designateproducer" () ⟨[]⟩
        (twoRefs ⟨"", ""⟩ ⟨"zone-a", "openstack"⟩ [])).inst.1.lastAppliedTopology =
      some 2 ∧
    (ensureTopologyRecorded (failingCollaborator (.errorString "finalizer removal conflict"))
        Instance.handler nullUpdater () "openstack" ⟨none, some 2⟩
        "openstack.org/designateproducer" () ⟨[]⟩
        (twoRefs ⟨"", ""⟩ ⟨"zone-a", "openstack"⟩ [])).world.deref (some 2) =
      some ⟨"zone-a", "openstack"⟩ := by
  refine ⟨rfl, ?_, rfl, ?_⟩ <;> decide

/-- C2, amended: for a custom resource whose spec topology ref is nil, whatever
its last-applied ref, the finalizer and the selector, a call in which the
collaborator returns no error returns no error and leaves the last-applied
topology ref nil. -/
theorem ensureTopology_nil_ref_success {Ctx Hlp σ κ : Type}
    (EST : Collaborator Ctx Hlp σ)
    (U : conditionUpdater κ)
    (ctx : Ctx) (helper : Hlp) (inst : Instance) (finalizer : String) (cu : κ)
    (sel : LabelSelector) (w : World σ)
    (hNil : inst.specTopologyRef = none)
    (hOk : (EST ctx helper inst.specTopologyRef inst.lastAppliedTopology
      finalizer sel w).err = none) :
    (ensureTopologyRecorded EST Instance.handler U ctx helper inst finalizer cu sel w).err =
      none ∧
    (ensureTopologyRecorded EST Instance.handler U ctx helper inst finalizer cu
      sel w).inst.1.lastAppliedTopology = none := by
  have h := ensureTopology_of_success EST (recordingHandler Instance.handler)
    (recordingUpdater U) ctx helper (inst, []) finalizer (cu, []) sel w hOk
  unfold ensureTopologyRecorded
  rw [h]
  exact ⟨rfl, hNil⟩

/-- Witness of the amended C2: a custom resource that no longer names a
topology, while `zone-a` is still recorded as applied. -/
theorem ensureTopology_nil_ref_success_witness :
    (⟨none, some 2⟩ : Instance).specTopologyRef = none ∧
    (defaultingCollaborator () "openstack" none (some 2)
      "openstack.org/designateproducer" ⟨[]⟩
      (twoRefs ⟨"", ""⟩ ⟨"zone-a", "openstack"⟩ [⟨"zone-a", "openstack", []⟩])).err = none ∧
    (ensureTopologyRecorded defaultingCollaborator
      Instance.handler nullUpdater () "openstack" ⟨none, some 2⟩
      "openstack.org/designateproducer" () ⟨[]⟩
      (twoRefs ⟨"", ""⟩ ⟨"zone-a", "openstack"⟩
        [⟨"zone-a", "openstack", []⟩])).inst.1.lastAppliedTopology = none :=
  ⟨rfl, rfl, (ensureTopology_nil_ref_success defaultingCollaborator nullUpdater ()
    "openstack" ⟨none, some 2⟩ "openstack.org/designateproducer" () ⟨[]⟩
    (twoRefs ⟨"", ""⟩ ⟨"zone-a", "openstack"⟩ [⟨"zone-a", "openstack", []⟩])
    rfl rfl).2⟩

/-- C3: when the collaborator returns no error and the spec topology ref is
non-nil, the calls made on the condition updater are exactly one
`MarkTrue(TopologyReadyCondition, TopologyReadyMessage)`, whatever the
last-applied ref and the Topology returned; no `Set` is made. -/
theorem ensureTopology_success_marks_true_once {Ctx Hlp σ κ : Type}
    (EST : Collaborator Ctx Hlp σ)
    (U : conditionUpdater κ)
    (ctx : Ctx) (helper : Hlp) (inst : Instance) (finalizer : String) (cu : κ)
    (sel : LabelSelector) (w : World σ)
    (hOk : (EST ctx helper inst.specTopologyRef inst.lastAppliedTopology
      finalizer sel w).err = none)
    (hRef : inst.specTopologyRef ≠ none) :
    (ensureTopologyRecorded EST Instance.handler U ctx helper inst finalizer cu sel w).cu =
      (U.MarkTrue TopologyReadyCondition TopologyReadyMessage [] cu,
        [.MarkTrue TopologyReadyCondition TopologyReadyMessage []]) ∧
    (ensureTopologyRecorded EST Instance.handler U ctx helper inst finalizer cu
      sel w).cu.2.countP UpdaterCall.isMarkTrue = 1 ∧
    (ensureTopologyRecorded EST Instance.handler U ctx helper inst finalizer cu
      sel w).cu.2.countP UpdaterCall.isSet = 0 := by
  have h := ensureTopology_of_success EST (recordingHandler Instance.handler)
    (recordingUpdater U) ctx helper (inst, []) finalizer (cu, []) sel w hOk
  unfold ensureTopologyRecorded
  rw [h]
  obtain ⟨spec, last⟩ := inst
  cases spec with
  | none => exact absurd rfl hRef
  | some r => exact ⟨rfl, rfl, rfl⟩

/-- Witness of C3: the last-applied ref already equals the spec ref, and
`MarkTrue` is called all the same. -/
theorem ensureTopology_success_marks_true_once_witness :
    (defaultingCollaborator () "openstack" (some 1) (some 2)
      "openstack.org/designateproducer" ⟨[]⟩
      (twoRefs ⟨"zone-a", "openstack"⟩ ⟨"zone-a", "openstack"⟩
        [⟨"zone-a", "openstack", []⟩])).err = none ∧
    (⟨some 1, some 2⟩ : Instance).specTopologyRef ≠ none ∧
    (ensureTopologyRecorded defaultingCollaborator
      Instance.handler nullUpdater () "openstack" ⟨some 1, some 2⟩
      "openstack.org/designateproducer" () ⟨[]⟩
      (twoRefs ⟨"zone-a", "openstack"⟩ ⟨"zone-a", "openstack"⟩
        [⟨"zone-a", "openstack", []⟩])).cu.2 =
      [.MarkTrue TopologyReadyCondition TopologyReadyMessage []] :=
  ⟨by decide, by decide, congrArg Prod.snd (ensureTopology_success_marks_true_once
    defaultingCollaborator nullUpdater () "openstack" ⟨some 1, some 2⟩
    "openstack.org/designateproducer" () ⟨[]⟩
    (twoRefs ⟨"zone-a", "openstack"⟩ ⟨"zone-a", "openstack"⟩
      [⟨"zone-a", "openstack", []⟩]) (by decide) (by decide)).1⟩

/-- C4: when the collaborator returns no error, the last-applied topology ref
after the call is the spec topology ref, whatever it was before: the instance's
last-applied pointer is its spec pointer (nil when that is nil), the spec
pointer is the one it held before the call, and the two refs read after the
call are equal, so there is no drift. -/
theorem ensureTopology_success_sets_lastApplied {Ctx Hlp σ κ : Type}
    (EST : Collaborator Ctx Hlp σ)
    (U : conditionUpdater κ)
    (ctx : Ctx) (helper : Hlp) (inst : Instance) (finalizer : String) (cu : κ)
    (sel : LabelSelector) (w : World σ)
    (hOk : (EST ctx helper inst.specTopologyRef inst.lastAppliedTopology
      finalizer sel w).err = none) :
    (ensureTopologyRecorded EST Instance.handler U ctx helper inst finalizer cu
      sel w).inst.1.lastAppliedTopology =
    (ensureTopologyRecorded EST Instance.handler U ctx helper inst finalizer cu
      sel w).inst.1.specTopologyRef ∧
    (ensureTopologyRecorded EST Instance.handler U ctx helper inst finalizer cu
      sel w).inst.1.specTopologyRef = inst.specTopologyRef ∧
    (inst.specTopologyRef = none →
      (ensureTopologyRecorded EST Instance.handler U ctx helper inst finalizer cu
        sel w).inst.1.lastAppliedTopology = none) ∧
    (ensureTopologyRecorded EST Instance.handler U ctx helper inst finalizer cu
      sel w).world.deref
      (ensureTopologyRecorded EST Instance.handler U ctx helper inst finalizer cu
        sel w).inst.1.lastAppliedTopology =
    (ensureTopologyRecorded EST Instance.handler U ctx helper inst finalizer cu
      sel w).world.deref
      (ensureTopologyRecorded EST Instance.handler U ctx helper inst finalizer cu
        sel w).inst.1.specTopologyRef ∧
    (ensureTopologyRecorded EST Instance.handler U ctx helper inst finalizer cu
      sel w).world =
      (EST ctx helper inst.specTopologyRef inst.lastAppliedTopology finalizer sel w).world := by
  have h := ensureTopology_of_success EST (recordingHandler Instance.handler)
    (recordingUpdater U) ctx helper (inst, []) finalizer (cu, []) sel w hOk
  unfold ensureTopologyRecorded
  rw [h]
  exact ⟨rfl, rfl, fun hn => hn, rfl, rfl⟩

/-- Witness of C4: the spec names `zone-a` without a namespace and
`zone-a` of `openstack` is recorded as applied; the collaborator fills in the
namespace through the spec pointer, and after the call both refs read `zone-a`
of `openstack`. -/
theorem ensureTopology_success_sets_lastApplied_witness :
    (defaultingCollaborator () "openstack" (some 1) (some 2)
      "openstack.org/designateproducer" ⟨[]⟩
      (twoRefs ⟨"zone-a", ""⟩ ⟨"zone-a", "openstack"⟩
        [⟨"zone-a", "openstack", []⟩])).err = none ∧
    (ensureTopologyRecorded defaultingCollaborator
      Instance.handler nullUpdater () "openstack" ⟨some 1, some 2⟩
      "openstack.org/designateproducer" () ⟨[]⟩
      (twoRefs ⟨"zone-a", ""⟩ ⟨"zone-a", "openstack"⟩
        [⟨"zone-a", "openstack", []⟩])).world.deref
      (ensureTopologyRecorded defaultingCollaborator
        Instance.handler nullUpdater () "openstack" ⟨some 1, some 2⟩
        "openstack.org/designateproducer" () ⟨[]⟩
        (twoRefs ⟨"zone-a", ""⟩ ⟨"zone-a", "openstack"⟩
          [⟨"zone-a", "openstack", []⟩])).inst.1.lastAppliedTopology =
      some ⟨"zone-a", "openstack"⟩ :=
  ⟨by decide, (ensureTopology_success_sets_lastApplied defaultingCollaborator nullUpdater ()
    "openstack" ⟨some 1, some 2⟩ "openstack.org/designateproducer" () ⟨[]⟩
    (twoRefs ⟨"zone-a", ""⟩ ⟨"zone-a", "openstack"⟩ [⟨"zone-a", "openstack", []⟩])
    (by decide)).2.2.2.1.trans (by decide)⟩

/-- C5: when the collaborator returns the error `e`, whatever its kind, the
calls made on the condition updater are exactly one `Set`, of
`FalseCondition(TopologyReadyCondition, ErrorReason, SeverityWarning,
TopologyReadyErrorMessage, e.Error())`: a TopologyReady condition of status
False and severity Warning whose message ends with the text of `e`; no
`MarkTrue` is made. -/
theorem ensureTopology_error_sets_false_once {Ctx Hlp σ ι κ : Type}
    (EST : Collaborator Ctx Hlp σ)
    (H : topologyHandler ι) (U : conditionUpdater κ)
    (ctx : Ctx) (helper : Hlp) (inst : ι) (finalizer : String) (cu : κ)
    (sel : LabelSelector) (w : World σ) (e : GoError)
    (hErr : (EST ctx helper (H.GetSpecTopologyRef inst) (H.GetLastAppliedTopology inst)
      finalizer sel w).err = some e) :
    (ensureTopologyRecorded EST H U ctx helper inst finalizer cu sel w).cu =
      (U.Set (FalseCondition TopologyReadyCondition ErrorReason SeverityWarning
          TopologyReadyErrorMessage [e.Error]) cu,
        [.Set (FalseCondition TopologyReadyCondition ErrorReason SeverityWarning
          TopologyReadyErrorMessage [e.Error])]) ∧
    (ensureTopologyRecorded EST H U ctx helper inst finalizer cu sel w).cu.2.countP
      UpdaterCall.isSet = 1 ∧
    (ensureTopologyRecorded EST H U ctx helper inst finalizer cu sel w).cu.2.countP
      UpdaterCall.isMarkTrue = 0 ∧
    FalseCondition TopologyReadyCondition ErrorReason SeverityWarning
        TopologyReadyErrorMessage [e.Error] =
      { CondType := "TopologyReady"
        Status := "False"
        Severity := "Warning"
        Reason := "Error"
        Message := "Topology config create error occurred " ++ e.Error } := by
  have h := ensureTopology_of_error EST (recordingHandler H) (recordingUpdater U)
    ctx helper (inst, []) finalizer (cu, []) sel w e hErr
  unfold ensureTopologyRecorded
  rw [h]
  refine ⟨rfl, rfl, rfl, ?_⟩
  unfold FalseCondition
  rw [Sprintf_TopologyReadyErrorMessage]
  rfl

/-- Witness of C5: the collaborator reports that two topologies match. -/
theorem ensureTopology_error_sets_false_once_witness :
    (failingCollaborator (.errorString "ambiguous topology reference") () "openstack"
      (some 1) none "openstack.org/designateproducer" ⟨[]⟩
      (twoRefs ⟨"zone-b", ""⟩ ⟨"", ""⟩ [])).err =
      some (.errorString "ambiguous topology reference") ∧
    (ensureTopologyRecorded (failingCollaborator (.errorString "ambiguous topology reference"))
      Instance.handler nullUpdater () "openstack" ⟨some 1, none⟩
      "openstack.org/designateproducer" () ⟨[]⟩
      (twoRefs ⟨"zone-b", ""⟩ ⟨"", ""⟩ [])).cu.2 =
      [.Set ⟨"TopologyReady", "False", "Warning", "Error",
        "Topology config create error occurred ambiguous topology reference"⟩] :=
  ⟨rfl, (congrArg Prod.snd (ensureTopology_error_sets_false_once
    (failingCollaborator (.errorString "ambiguous topology reference"))
    Instance.handler nullUpdater () "openstack" ⟨some 1, none⟩
    "openstack.org/designateproducer" () ⟨[]⟩ (twoRefs ⟨"zone-b", ""⟩ ⟨"", ""⟩ [])
    (.errorString "ambiguous topology reference") rfl).1).trans (by decide)⟩

/-- C6: `ensureTopology` returns an error exactly when the collaborator does.
On the collaborator's error `e` it returns no Topology and an error whose text
is `waiting for Topology requirements: ` followed by the text of `e` and which
unwraps to `e`; on the collaborator's `(t, nil)` it returns `(t, nil)`. -/
theorem ensureTopology_result {Ctx Hlp σ ι κ : Type}
    (EST : Collaborator Ctx Hlp σ)
    (H : topologyHandler ι) (U : conditionUpdater κ)
    (ctx : Ctx) (helper : Hlp) (inst : ι) (finalizer : String) (cu : κ)
    (sel : LabelSelector) (w : World σ) :
    ((ensureTopology EST H U ctx helper inst finalizer cu sel w).err ≠ none ↔
      (EST ctx helper (H.GetSpecTopologyRef inst) (H.GetLastAppliedTopology inst)
        finalizer sel w).err ≠ none) ∧
    (∀ e, (EST ctx helper (H.GetSpecTopologyRef inst) (H.GetLastAppliedTopology inst)
        finalizer sel w).err = some e →
      (ensureTopology EST H U ctx helper inst finalizer cu sel w).topology = none ∧
      (ensureTopology EST H U ctx helper inst finalizer cu sel w).err =
        some (Errorf_w "waiting for Topology requirements: " e) ∧
      (Errorf_w "waiting for Topology requirements: " e).Error =
        "waiting for Topology requirements: " ++ e.Error ∧
      (Errorf_w "waiting for Topology requirements: " e).Unwrap = some e) ∧
    (∀ t, (EST ctx helper (H.GetSpecTopologyRef inst) (H.GetLastAppliedTopology inst)
        finalizer sel w).topology = t →
      (EST ctx helper (H.GetSpecTopologyRef inst) (H.GetLastAppliedTopology inst)
        finalizer sel w).err = none →
      (ensureTopology EST H U ctx helper inst finalizer cu sel w).topology = t ∧
      (ensureTopology EST H U ctx helper inst finalizer cu sel w).err = none) := by
  refine ⟨?_, ?_, ?_⟩
  · cases hr : (EST ctx helper (H.GetSpecTopologyRef inst) (H.GetLastAppliedTopology inst)
        finalizer sel w).err with
    | none =>
      rw [ensureTopology_of_success EST H U ctx helper inst finalizer cu sel w hr]
    | some e =>
      rw [ensureTopology_of_error EST H U ctx helper inst finalizer cu sel w e hr]
      simp
  · intro e hr
    rw [ensureTopology_of_error EST H U ctx helper inst finalizer cu sel w e hr]
    exact ⟨rfl, rfl, rfl, rfl⟩
  · intro t ht hr
    rw [ensureTopology_of_success EST H U ctx helper inst finalizer cu sel w hr]
    exact ⟨ht, rfl⟩

/-- Witness of C6: a collaborator error is returned wrapped, with no Topology. -/
theorem ensureTopology_result_witness :
    (ensureTopology defaultingCollaborator Instance.handler nullUpdater () "openstack"
      ⟨some 1, some 2⟩ "openstack.org/designateproducer" () ⟨[]⟩
      (twoRefs ⟨"zone-b", "openstack"⟩ ⟨"zone-a", "openstack"⟩
        [⟨"zone-a", "openstack", []⟩])).topology = none ∧
    (ensureTopology defaultingCollaborator Instance.handler nullUpdater () "openstack"
      ⟨some 1, some 2⟩ "openstack.org/designateproducer" () ⟨[]⟩
      (twoRefs ⟨"zone-b", "openstack"⟩ ⟨"zone-a", "openstack"⟩
        [⟨"zone-a", "openstack", []⟩])).err =
      some (.wrapError "waiting for Topology requirements: topology zone-b not found"
        (.errorString "topology zone-b not found")) :=
  ⟨((ensureTopology_result defaultingCollaborator Instance.handler nullUpdater ()
      "openstack" ⟨some 1, some 2⟩ "openstack.org/designateproducer" () ⟨[]⟩
      (twoRefs ⟨"zone-b", "openstack"⟩ ⟨"zone-a", "openstack"⟩
        [⟨"zone-a", "openstack", []⟩])).2.1
      (.errorString "topology zone-b not found") (by decide)).1,
    ((ensureTopology_result defaultingCollaborator Instance.handler nullUpdater ()
      "openstack" ⟨some 1, some 2⟩ "openstack.org/designateproducer" () ⟨[]⟩
      (twoRefs ⟨"zone-b", "openstack"⟩ ⟨"zone-a", "openstack"⟩
        [⟨"zone-a", "openstack", []⟩])).2.1
      (.errorString "topology zone-b not found") (by decide)).2.1.trans (by decide)⟩

/-- C7 as stated fails: the last-applied ref already equals the spec ref and
the collaborator succeeds, writing nothing, yet `ensureTopology` calls
`SetLastAppliedTopology` and calls `MarkTrue` on the condition updater. -/
theorem ensureTopology_consistent_writes_counterexample :
    (twoRefs ⟨"zone-a", "openstack"⟩ ⟨"zone-a", "openstack"⟩
      [⟨"zone-a", "openstack", []⟩]).deref (⟨some 1, some 2⟩ : Instance).lastAppliedTopology =
    (twoRefs ⟨"zone-a", "openstack"⟩ ⟨"zone-a", "openstack"⟩
      [⟨"zone-a", "openstack", []⟩]).deref (⟨some 1, some 2⟩ : Instance).specTopologyRef ∧
    (ensureTopologyRecorded (succeedingCollaborator ⟨"zone-a", "openstack", []⟩)
      Instance.handler nullUpdater () "openstack" ⟨some 1, some 2⟩
      "openstack.org/designateproducer" () ⟨[]⟩
      (twoRefs ⟨"zone-a", "openstack"⟩ ⟨"zone-a", "openstack"⟩
        [⟨"zone-a", "openstack", []⟩])).err = none ∧
    (ensureTopologyRecorded (succeedingCollaborator ⟨"zone-a", "openstack", []⟩)
      Instance.handler nullUpdater () "openstack" ⟨some 1, some 2⟩
      "openstack.org/designateproducer" () ⟨[]⟩
      (twoRefs ⟨"zone-a", "openstack"⟩ ⟨"zone-a", "openstack"⟩
        [⟨"zone-a", "openstack", []⟩])).inst.2 = [some 1] ∧
    (ensureTopologyRecorded (succeedingCollaborator ⟨"zone-a", "openstack", []⟩)
      Instance.handler nullUpdater () "openstack" ⟨some 1, some 2⟩
      "openstack.org/designateproducer" () ⟨[]⟩
      (twoRefs ⟨"zone-a", "openstack"⟩ ⟨"zone-a", "openstack"⟩
        [⟨"zone-a", "openstack", []⟩])).cu.2 =
      [.MarkTrue "TopologyReady" "Topology config create completed" []] :=
  ⟨rfl, rfl, rfl, rfl⟩

/-- C7, amended: for a custom resource whose last-applied ref already equals
its spec ref, a call in which the collaborator succeeds returns the
collaborator's Topology and no error, and it writes: it makes exactly one
`SetLastAppliedTopology` call, with the spec pointer, and, when the spec ref is
non-nil, exactly one `MarkTrue(TopologyReadyCondition, TopologyReadyMessage)`,
otherwise no condition updater call.  The world is the one the collaborator
left; whenever the collaborator left the `TopoRef` behind the spec pointer as
it was, both refs read after the call are the ones read before it. -/
theorem ensureTopology_consistent_idempotent {Ctx Hlp σ κ : Type}
    (EST : Collaborator Ctx Hlp σ)
    (U : conditionUpdater κ)
    (ctx : Ctx) (helper : Hlp) (inst : Instance) (finalizer : String) (cu : κ)
    (sel : LabelSelector) (w : World σ)
    (hSame : w.deref inst.lastAppliedTopology = w.deref inst.specTopologyRef)
    (hOk : (EST ctx helper inst.specTopologyRef inst.lastAppliedTopology
      finalizer sel w).err = none) :
    (ensureTopologyRecorded EST Instance.handler U ctx helper inst finalizer cu
      sel w).inst.2 = [inst.specTopologyRef] ∧
    (ensureTopologyRecorded EST Instance.handler U ctx helper inst finalizer cu
      sel w).cu.2 =
      (match inst.specTopologyRef with
        | some _ => [.MarkTrue TopologyReadyCondition TopologyReadyMessage []]
        | none => []) ∧
    (ensureTopologyRecorded EST Instance.handler U ctx helper inst finalizer cu
      sel w).topology =
      (EST ctx helper inst.specTopologyRef inst.lastAppliedTopology finalizer sel
        w).topology ∧
    (ensureTopologyRecorded EST Instance.handler U ctx helper inst finalizer cu
      sel w).err = none ∧
    (ensureTopologyRecorded EST Instance.handler U ctx helper inst finalizer cu
      sel w).world =
      (EST ctx helper inst.specTopologyRef inst.lastAppliedTopology finalizer sel w).world ∧
    ((EST ctx helper inst.specTopologyRef inst.lastAppliedTopology finalizer sel
        w).world.deref inst.specTopologyRef = w.deref inst.specTopologyRef →
      (ensureTopologyRecorded EST Instance.handler U ctx helper inst finalizer cu
        sel w).world.deref
        (ensureTopologyRecorded EST Instance.handler U ctx helper inst finalizer cu
          sel w).inst.1.lastAppliedTopology = w.deref inst.lastAppliedTopology ∧
      (ensureTopologyRecorded EST Instance.handler U ctx helper inst finalizer cu
        sel w).world.deref
        (ensureTopologyRecorded EST Instance.handler U ctx helper inst finalizer cu
          sel w).inst.1.specTopologyRef = w.deref inst.specTopologyRef) := by
  have h := ensureTopology_of_success EST (recordingHandler Instance.handler)
    (recordingUpdater U) ctx helper (inst, []) finalizer (cu, []) sel w hOk
  unfold ensureTopologyRecorded
  rw [h]
  refine ⟨rfl, ?_, rfl, rfl, rfl, ?_⟩
  · obtain ⟨spec, last⟩ := inst
    cases spec <;> rfl
  · intro hKeep
    exact ⟨hKeep.trans hSame.symm, hKeep⟩

/-- Witness of the amended C7: a custom resource whose two refs read `zone-a` of
`openstack`; the collaborator finds the Topology and writes nothing. -/
theorem ensureTopology_consistent_idempotent_witness :
    (twoRefs ⟨"zone-a", "openstack"⟩ ⟨"zone-a", "openstack"⟩
      [⟨"zone-a", "openstack", []⟩]).deref (⟨some 1, some 2⟩ : Instance).lastAppliedTopology =
    (twoRefs ⟨"zone-a", "openstack"⟩ ⟨"zone-a", "openstack"⟩
      [⟨"zone-a", "openstack", []⟩]).deref (⟨some 1, some 2⟩ : Instance).specTopologyRef ∧
    (defaultingCollaborator () "openstack" (some 1) (some 2)
      "openstack.org/designateproducer" ⟨[]⟩
      (twoRefs ⟨"zone-a", "openstack"⟩ ⟨"zone-a", "openstack"⟩
        [⟨"zone-a", "openstack", []⟩])).err = none ∧
    (ensureTopologyRecorded defaultingCollaborator Instance.handler nullUpdater ()
      "openstack" ⟨some 1, some 2⟩ "openstack.org/designateproducer" () ⟨[]⟩
      (twoRefs ⟨"zone-a", "openstack"⟩ ⟨"zone-a", "openstack"⟩
        [⟨"zone-a", "openstack", []⟩])).world.deref
      (ensureTopologyRecorded defaultingCollaborator Instance.handler nullUpdater ()
        "openstack" ⟨some 1, some 2⟩ "openstack.org/designateproducer" () ⟨[]⟩
        (twoRefs ⟨"zone-a", "openstack"⟩ ⟨"zone-a", "openstack"⟩
          [⟨"zone-a", "openstack", []⟩])).inst.1.lastAppliedTopology =
      some ⟨"zone-a", "openstack"⟩ :=
  ⟨by decide, by decide, ((ensureTopology_consistent_idempotent defaultingCollaborator
    nullUpdater () "openstack" ⟨some 1, some 2⟩ "openstack.org/designateproducer" () ⟨[]⟩
    (twoRefs ⟨"zone-a", "openstack"⟩ ⟨"zone-a", "openstack"⟩
      [⟨"zone-a", "openstack", []⟩]) (by decide) (by decide)).2.2.2.2.2
    (by decide)).1.trans (by decide)⟩

/-- C9: `MarkTrue` is called exactly when the collaborator succeeds and the spec
topology ref is non-nil; when the collaborator succeeds and the spec topology
ref is nil, no call at all is made on the condition updater, whose state after
the call is the one before it. -/
theorem ensureTopology_marks_true_iff {Ctx Hlp σ κ : Type}
    (EST : Collaborator Ctx Hlp σ)
    (U : conditionUpdater κ)
    (ctx : Ctx) (helper : Hlp) (inst : Instance) (finalizer : String) (cu : κ)
    (sel : LabelSelector) (w : World σ) :
    ((ensureTopologyRecorded EST Instance.handler U ctx helper inst finalizer cu
        sel w).cu.2.any UpdaterCall.isMarkTrue = true ↔
      ((EST ctx helper inst.specTopologyRef inst.lastAppliedTopology finalizer sel
          w).err = none ∧
        inst.specTopologyRef ≠ none)) ∧
    ((EST ctx helper inst.specTopologyRef inst.lastAppliedTopology finalizer sel
        w).err = none →
      inst.specTopologyRef = none →
      (ensureTopologyRecorded EST Instance.handler U ctx helper inst finalizer cu
        sel w).cu = (cu, [])) := by
  obtain ⟨spec, last⟩ := inst
  cases hr : (EST ctx helper spec last finalizer sel w).err with
  | some e =>
    have h := ensureTopology_of_error EST (recordingHandler Instance.handler)
      (recordingUpdater U) ctx helper (⟨spec, last⟩, []) finalizer (cu, []) sel w e hr
    unfold ensureTopologyRecorded
    rw [h]
    simp [recordingUpdater, UpdaterCall.isMarkTrue]
  | none =>
    have h := ensureTopology_of_success EST (recordingHandler Instance.handler)
      (recordingUpdater U) ctx helper (⟨spec, last⟩, []) finalizer (cu, []) sel w hr
    unfold ensureTopologyRecorded
    rw [h]
    cases spec with
    | none => simp [recordingHandler, Instance.handler]
    | some r => simp [recordingHandler, Instance.handler, recordingUpdater, UpdaterCall.isMarkTrue]

/-- Witness of C9: a custom resource that names no topology, with a
collaborator that succeeds: the condition updater receives no call. -/
theorem ensureTopology_marks_true_iff_witness :
    (ensureTopologyRecorded defaultingCollaborator
      Instance.handler nullUpdater () "openstack" ⟨none, some 2⟩
      "openstack.org/designateproducer" () ⟨[]⟩
      (twoRefs ⟨"", ""⟩ ⟨"zone-a", "openstack"⟩ [⟨"zone-a", "openstack", []⟩])).cu =
      ((), []) :=
  (ensureTopology_marks_true_iff defaultingCollaborator nullUpdater () "openstack"
    ⟨none, some 2⟩ "openstack.org/designateproducer" () ⟨[]⟩
    (twoRefs ⟨"", ""⟩ ⟨"zone-a", "openstack"⟩ [⟨"zone-a", "openstack", []⟩])).2 rfl rfl

/-! ## Claims on the init containers -/

/-- C8: for every `InitContainerDetails`, `SimpleInitContainer` is the container
named `init` with the image of the details, command `/bin/bash`, arguments `-c`
and `InitContainerCommand` (the path of `init.sh`), a security context that
only sets `RunAsUser` to 0, the environment and the volume mounts of the
details as they are, and every other field at its zero value. -/
theorem SimpleInitContainer_fields (d : InitContainerDetails) :
    SimpleInitContainer d =
      { Name := "init"
        Image := d.ContainerImage
        Command := some ["/bin/bash"]
        Args := some ["-c", InitContainerCommand]
        WorkingDir := ""
        Ports := none
        EnvFrom := none
        Env := d.EnvVars
        Resources := { Limits := none, Requests := none, Claims := none }
        ResizePolicy := none
        RestartPolicy := none
        VolumeMounts := d.VolumeMounts
        VolumeDevices := none
        LivenessProbe := none
        ReadinessProbe := none
        StartupProbe := none
        Lifecycle := none
        TerminationMessagePath := ""
        TerminationMessagePolicy := ""
        ImagePullPolicy := ""
        SecurityContext := some
          { Capabilities := none
            Privileged := none
            SELinuxOptions := none
            WindowsOptions := none
            RunAsUser := some 0
            RunAsGroup := none
            RunAsNonRoot := none
            ReadOnlyRootFilesystem := none
            AllowPrivilegeEscalation := none
            ProcMount := none
            SeccompProfile := none
            AppArmorProfile := none }
        Stdin := false
        StdinOnce := false
        TTY := false } ∧
    InitContainerCommand = "/usr/local/bin/container-scripts/init.sh" ∧
    (SimpleInitContainer d).Env = d.EnvVars ∧
    (SimpleInitContainer d).VolumeMounts = d.VolumeMounts ∧
    (SimpleInitContainer d).SecurityContext.bind SecurityContext.RunAsUser = some 0 :=
  ⟨rfl, rfl, rfl, rfl, rfl⟩

/-- C10: for every `APIDetails`, `InitContainer` is a list of exactly one
container, the `SimpleInitContainer` of its image and volume mounts with nil
environment; so two `APIDetails` with the same image and volume mounts, whatever
their other six fields, give the same list. -/
theorem InitContainer_eq_SimpleInitContainer (a b : APIDetails)
    (hImage : a.ContainerImage = b.ContainerImage)
    (hMounts : a.VolumeMounts = b.VolumeMounts) :
    InitContainer a = some [SimpleInitContainer
      { ContainerImage := a.ContainerImage
        VolumeMounts := a.VolumeMounts
        EnvVars := none }] ∧
    (InitContainer a).map List.length = some 1 ∧
    InitContainer a = InitContainer b := by
  refine ⟨rfl, rfl, ?_⟩
  unfold InitContainer
  rw [hImage, hMounts]

/-- Witness of C10: two `APIDetails` that agree on the image and the volume
mounts and differ in the six other fields. -/
theorem InitContainer_eq_SimpleInitContainer_witness :
    (⟨"quay.io/designate-api:current", "db-a", "designate", "osp-secret", "rabbit-a",
        "DesignatePassword", some [{ Name := "scripts", MountPath := "/usr/local/bin/container-scripts", ReadOnly := true }],
        false⟩ : APIDetails) ≠
      ⟨"quay.io/designate-api:current", "db-b", "designate2", "osp-secret-2", "rabbit-b",
        "AdminPassword", some [{ Name := "scripts", MountPath := "/usr/local/bin/container-scripts", ReadOnly := true }],
        true⟩ ∧
    InitContainer ⟨"quay.io/designate-api:current", "db-a", "designate", "osp-secret",
        "rabbit-a", "DesignatePassword",
        some [{ Name := "scripts", MountPath := "/usr/local/bin/container-scripts", ReadOnly := true }],
        false⟩ =
      InitContainer ⟨"quay.io/designate-api:current", "db-b", "designate2", "osp-secret-2",
        "rabbit-b", "AdminPassword",
        some [{ Name := "scripts", MountPath := "/usr/local/bin/container-scripts", ReadOnly := true }],
        true⟩ :=
  ⟨by decide, (InitContainer_eq_SimpleInitContainer
    ⟨"quay.io/designate-api:current", "db-a", "designate", "osp-secret", "rabbit-a",
      "DesignatePassword",
      some [{ Name := "scripts", MountPath := "/usr/local/bin/container-scripts", ReadOnly := true }],
      false⟩
    ⟨"quay.io/designate-api:current", "db-b", "designate2", "osp-secret-2", "rabbit-b",
      "AdminPassword",
      some [{ Name := "scripts", MountPath := "/usr/local/bin/container-scripts", ReadOnly := true }],
      true⟩ rfl rfl).2.2⟩

end Designate
